import Mathlib

/-!
Verification of the reaper-rs core: the build-time code generator in
`src/main/low/build.rs` (declaration extractor, binding generator, function
pointer table and its loader/accessors) and the medium-level typed dispatch
layer in `src/main/medium/src/reaper_functions.rs` (thread-scope capability
markers, string-buffer wrappers, sentinel conversion, checked/unchecked
variants).

Panics of the Rust code are modelled as `Except.error` with the panic
message; raw nullable pointers as `Option Nat` (`none` = null); byte buffers
as `List Nat`.
-/

namespace ReaperRs

/-! ## Syntax-tree mirror

A mirror of the `syn` subset that `build.rs` (phase_two) consumes: types,
path segments, generic arguments, bare-function signatures, items. -/

mutual

inductive RType : Type where
  | ptr (inner : RType) : RType
  | path (segments : List PathSeg) : RType
  | bareFn (sig : BareSig) : RType
  | otherTy : RType

inductive PathSeg : Type where
  | mk (ident : String) (arguments : PathArgs) : PathSeg

inductive PathArgs : Type where
  | noArgs : PathArgs
  | angleBracketed (args : List GenericArg) : PathArgs
  | parenthesized : PathArgs

inductive GenericArg : Type where
  | type (t : RType) : GenericArg
  | otherGA : GenericArg

/-- `syn::TypeBareFn`: unsafety flag, inputs, output. -/
inductive BareSig : Type where
  | mk (unsafety : Bool) (inputs : List BareFnArg) (output : RType) : BareSig

/-- `syn::BareFnArg`: optional argument name plus its type. -/
inductive BareFnArg : Type where
  | mk (name : Option String) (ty : RType) : BareFnArg

end

def PathSeg.ident : PathSeg → String
  | .mk i _ => i

def PathSeg.arguments : PathSeg → PathArgs
  | .mk _ a => a

def BareSig.unsafety : BareSig → Bool
  | .mk u _ _ => u

def BareSig.inputs : BareSig → List BareFnArg
  | .mk _ i _ => i

def BareSig.output : BareSig → RType
  | .mk _ _ o => o

def BareFnArg.name : BareFnArg → Option String
  | .mk n _ => n

def BareFnArg.ty : BareFnArg → RType
  | .mk _ t => t

/-- `syn::ForeignItem` (only the cases `build.rs` distinguishes). -/
inductive ForeignItem : Type where
  | staticItem (ident : String) (ty : RType) : ForeignItem
  | otherForeign : ForeignItem

/-- `syn::Item` (only the cases `build.rs` distinguishes): a module with
optional inline content, a foreign (`extern`-block) module, or anything
else. -/
inductive Item : Type where
  | mod (ident : String) (content : Option (List Item)) : Item
  | foreignMod (items : List ForeignItem) : Item
  | otherItem : Item

/-- `syn::File`: the parsed `bindings.rs`. -/
structure SynFile where
  items : List Item

/-! ## Declaration extractor (`filter_fn_ptr_items`, `map_to_fn_ptr`) -/

/-- The `find_map` in `filter_fn_ptr_items`: the first sub-module of root
with the requested name and inline content. -/
def findFnPtrMod (moduleName : String) : List Item → Option (List Item)
  | [] => none
  | Item.mod id (some c) :: rest =>
      if id = moduleName then some c else findFnPtrMod moduleName rest
  | _ :: rest => findFnPtrMod moduleName rest

/-- The `filter_map` in `filter_fn_ptr_items`: keep each foreign module that
holds exactly one static declaration. -/
def collectStatics : List Item → List (String × RType)
  | [] => []
  | Item.foreignMod [ForeignItem.staticItem id ty] :: rest =>
      (id, ty) :: collectStatics rest
  | _ :: rest => collectStatics rest

/-- `filter_fn_ptr_items`: demand a single root module, find the
function-pointer sub-module, collect its static declarations. Panics are
`Except.error` with the panic message. -/
def filter_fn_ptr_items (file : SynFile) (moduleName : String) :
    Except String (List (String × RType)) :=
  match file.items with
  | [Item.mod id (some rootItems)] =>
      if id = "root" then
        match findFnPtrMod moduleName rootItems with
        | some fnPtrItems => Except.ok (collectStatics fnPtrItems)
        | none => Except.error "function pointer mod not found"
      else Except.error "root mod not found"
  | _ => Except.error "root mod not found"

/-- The name and signature of a relevant function pointer (struct `FnPtr`
in `build.rs`). -/
structure FnPtr where
  name : String
  signature : BareSig

/-- The `find` over path segments in `map_to_fn_ptr`: the first segment
whose identifier is `Option`. -/
def findOptionSegment : List PathSeg → Option PathSeg
  | [] => none
  | seg :: rest =>
      if seg.ident = "Option" then some seg else findOptionSegment rest

/-- `map_to_fn_ptr`: a matched static declaration must be a path type
containing an `Option` segment whose angle-bracketed first generic argument
is a bare-function type; every other shape panics. -/
def map_to_fn_ptr (item : String × RType) : Except String FnPtr :=
  match item.2 with
  | RType.path segments =>
      match findOptionSegment segments with
      | none => Except.error "Option not found in fn ptr item"
      | some optionSegment =>
          match optionSegment.arguments with
          | PathArgs.angleBracketed args =>
              match args with
              | [] => Except.error "Angle bracket must have arg"
              | genericArg :: _ =>
                  match genericArg with
                  | GenericArg.type (RType.bareFn sig) =>
                      Except.ok { name := item.1, signature := sig }
                  | _ => Except.error "Generic argument is not a BareFn"
          | _ => Except.error "Option type doesn't have angle bracket"
  | _ => Except.error "fn ptr item doesn't have path type"

/-- The `map` over extracted items in `parse_fn_ptrs`; the first panic
aborts the whole run. -/
def mapToFnPtrs : List (String × RType) → Except String (List FnPtr)
  | [] => Except.ok []
  | item :: rest =>
      match map_to_fn_ptr item with
      | Except.error e => Except.error e
      | Except.ok p =>
          match mapToFnPtrs rest with
          | Except.error e => Except.error e
          | Except.ok ps => Except.ok (p :: ps)

/-- `parse_fn_ptrs`: extract then convert. -/
def parse_fn_ptrs (file : SynFile) (moduleName : String) :
    Except String (List FnPtr) :=
  match filter_fn_ptr_items file moduleName with
  | Except.error e => Except.error e
  | Except.ok items => mapToFnPtrs items

/-- The per-argument test in `FnPtr::has_pointer_args`. -/
def isPtrType : RType → Bool
  | RType.ptr _ => true
  | _ => false

/-- `FnPtr::has_pointer_args`: some input has a raw pointer type. -/
def FnPtr.has_pointer_args (p : FnPtr) : Bool :=
  p.signature.inputs.any (fun a => isPtrType a.ty)

/-! ## Binding generator (`generate_method`, `build_compartments`,
`generate_reaper_token_stream`) -/

/-- `a.name.clone().unwrap()`, as used on each bare-function argument by
both `generate_method` and `generate_fn_ptr_call`; the panic message is
Rust's `Option::unwrap` message. -/
def unwrapName : Option String → Except String String
  | some n => Except.ok n
  | none => Except.error "called Option::unwrap() on a None value"

/-- The argument-name list a generated method and the generated call use,
in input order; a nameless argument panics. -/
def argNames : List BareFnArg → Except String (List String)
  | [] => Except.ok []
  | a :: rest =>
      match unwrapName a.name with
      | Except.error e => Except.error e
      | Except.ok n =>
          match argNames rest with
          | Except.error e => Except.error e
          | Except.ok ns => Except.ok (n :: ns)

/-- `generate_fn_ptr_call`: the expression `f(a1, ..., an)` — the call's
argument expressions are exactly the signature's input names, in order. -/
def generate_fn_ptr_call (signature : BareSig) : Except String (List String) :=
  argNames signature.inputs

/-- The relevant content of a generated accessor method: its name, whether
it is marked `unsafe`, whether it carries the generated safety doc comment,
its (non-receiver) parameter names and types, and the argument names of the
function-pointer call inside its body. -/
structure GenMethod where
  name : String
  markedUnsafe : Bool
  safetyDoc : Bool
  params : List String
  paramTys : List RType
  callArgs : List String
  retTy : RType

/-- `generate_method`: doc attributes and the `unsafe` marker are attached
exactly when the signature has pointer arguments; the parameter list is
`&self` followed by the signature's named inputs; the body is
`generate_method_body`, whose call is `generate_fn_ptr_call`. -/
def generate_method (ptr : FnPtr) : Except String GenMethod :=
  match argNames ptr.signature.inputs with
  | Except.error e => Except.error e
  | Except.ok ns =>
      match generate_fn_ptr_call ptr.signature with
      | Except.error e => Except.error e
      | Except.ok cargs =>
          Except.ok
            { name := ptr.name
              markedUnsafe := ptr.has_pointer_args
              safetyDoc := ptr.has_pointer_args
              params := ns
              paramTys := ptr.signature.inputs.map BareFnArg.ty
              callArgs := cargs
              retTy := ptr.signature.output }

/-- The signature stored in the table field: `build_compartments` keeps the
bare signature but clears `unsafety` when the signature has no pointer
arguments. -/
def adjustedSignature (p : FnPtr) : BareSig :=
  BareSig.mk (if p.has_pointer_args then p.signature.unsafety else false)
    p.signature.inputs p.signature.output

/-- The `map` producing the method list in `build_compartments`; the first
panic aborts generation. -/
def genMethods : List FnPtr → Except String (List GenMethod)
  | [] => Except.ok []
  | p :: rest =>
      match generate_method p with
      | Except.error e => Except.error e
      | Except.ok m =>
          match genMethods rest with
          | Except.error e => Except.error e
          | Except.ok ms => Except.ok (m :: ms)

/-- The three compartments `build_compartments` assembles. -/
structure Compartments where
  names : List String
  fn_ptr_signatures : List BareSig
  methods : List GenMethod

/-- `build_compartments`. -/
def build_compartments (fnPtrs : List FnPtr) : Except String Compartments :=
  match genMethods fnPtrs with
  | Except.error e => Except.error e
  | Except.ok ms =>
      Except.ok
        { names := fnPtrs.map FnPtr.name
          fn_ptr_signatures := fnPtrs.map adjustedSignature
          methods := ms }

/-- The generated artifact of `generate_reaper_token_stream` (and of the
structurally identical `generate_swell_token_stream`): the
`ReaperFunctionPointers` struct fields (one `pub #name: Option<#signature>`
per compartment entry, in order), the names the generated `load` resolves
via `GetFunc` (in order), and the accessor methods. -/
structure ReaperArtifact where
  structFields : List (String × BareSig)
  loaderNames : List String
  methods : List GenMethod

/-- `generate_reaper_token_stream`. -/
def generate_reaper_token_stream (fnPtrs : List FnPtr) :
    Except String ReaperArtifact :=
  match build_compartments fnPtrs with
  | Except.error e => Except.error e
  | Except.ok c =>
      Except.ok
        { structFields := c.names.zip c.fn_ptr_signatures
          loaderNames := c.names
          methods := c.methods }

/-! ## Runtime semantics of the generated code

A native function pointer is modelled as a total function `List α → α` on
an abstract value type; a table field is `Option` of one (`none` = the
entry point was absent). `Reaper::load` fills one field per declared name
with `transmute(GetFunc(name))`, where a null address becomes `none`. -/

/-- Field lookup in a record modelled as an association list. -/
def assoc {β : Type _} (k : String) : List (String × β) → Option β
  | [] => none
  | (k', v) :: rest => if k = k' then some v else assoc k rest

/-- `Reaper::load` / `Swell::load`: one resolver query per declared name,
in declaration order; the answer (null ↦ `none`) is stored unchanged. The
function is total: an absent entry point is recorded, never a panic. -/
def loadTable {α : Type _} (art : ReaperArtifact)
    (resolver : String → Option (List α → α)) :
    List (String × Option (List α → α)) :=
  art.loaderNames.map (fun n => (n, resolver n))

/-- Evaluation of the generated call's argument expressions: each argument
name is looked up in the environment binding the method's parameters to the
actual argument values. -/
def lookupArgs {α : Type _} (env : List (String × α)) :
    List String → Option (List α)
  | [] => some []
  | n :: rest =>
      match assoc n env with
      | none => none
      | some v =>
          match lookupArgs env rest with
          | none => none
          | some vs => some (v :: vs)

/-- `generate_method_body`: match on the table field; `None` panics with a
message naming the function, `Some f` evaluates `f(a1, ..., an)`. The
result records the returned value and the trace of native invocations
(function name and argument values, one entry per invocation). -/
def runMethod {α : Type _} (m : GenMethod) (field : Option (List α → α))
    (argv : List α) : Except String (α × List (String × List α)) :=
  match field with
  | none =>
      Except.error
        ("Attempt to use a function that has not been loaded: " ++ m.name)
  | some f =>
      match lookupArgs (m.params.zip argv) m.callArgs with
      | none => Except.error "unbound name in generated call"
      | some vs => Except.ok (f vs, [(m.name, vs)])

/-! ## Thread-scope capability markers
(`reaper_functions.rs`, lines 31-49 and 3139-3146) -/

/-- The two zero-sized scope marker types. -/
inductive UsageScope : Type where
  | mainThreadScope : UsageScope
  | realTimeAudioThreadScope : UsageScope

/-- `private::Sealed`: implemented exactly for the two scope types. The
closed inductive mirrors the sealing — no third implementation can exist. -/
inductive Sealed : UsageScope → Prop where
  | mainThreadScope : Sealed UsageScope.mainThreadScope
  | realTimeAudioThreadScope : Sealed UsageScope.realTimeAudioThreadScope

/-- `MainThreadOnly`: implemented only by `MainThreadScope`. -/
inductive MainThreadOnly : UsageScope → Prop where
  | mainThreadScope : MainThreadOnly UsageScope.mainThreadScope

/-- `AudioThreadOnly`: implemented only by `RealTimeAudioThreadScope`. -/
inductive AudioThreadOnly : UsageScope → Prop where
  | realTimeAudioThreadScope : AudioThreadOnly UsageScope.realTimeAudioThreadScope

/-! ## Typed dispatch layer (medium level)

Oracle model of the loaded low-level table as the medium layer calls it:
each native call is a total function of its arguments. A nullable raw
pointer is `Option Nat` (`none` = null). For buffer-filling calls the
oracle yields the native return value together with the bytes the native
side leaves in the caller-supplied buffer; the buffer argument is `none`
for the null pointer with size 0 and `some n` for a buffer of capacity
`n`. -/
structure LowReaper where
  EnumProjects : Int → Option Nat → Option Nat × List Nat
  GetMIDIInputName : Nat → Option Nat → Bool × List Nat
  GetMIDIOutputName : Nat → Option Nat → Bool × List Nat
  GetTrack : Option Nat → Int → Option Nat
  ValidatePtr2 : Option Nat → Nat → Bool
  TrackFX_AddByName : Nat → String → Bool → Int → Int
  GetMidiInput : Nat → Option Nat

/-- `ProjectContext`: the current project or an explicit `ReaProject`
pointer (a non-null pointer, modelled as `Nat`). -/
inductive ProjectContext : Type where
  | currentProject : ProjectContext
  | proj (p : Nat) : ProjectContext

/-- `ProjectContext::to_raw`: the current project is passed to the native
side as the null project pointer. -/
def ProjectContext.to_raw : ProjectContext → Option Nat
  | .currentProject => none
  | .proj p => some p

/-- The `u32 as i32` cast (two's complement reinterpretation). -/
def u32_as_i32 (n : Nat) : Int :=
  (((n : Int) + 2 ^ 31) % 2 ^ 32) - 2 ^ 31

/-- Reading back the filled buffer as a `CString` (`CString::from_raw`):
the bytes before the first NUL. -/
def takeUntilNul (content : List Nat) : List Nat :=
  content.takeWhile (fun b => b ≠ 0)

/-- One byte in the 0x80-0xBF continuation range. -/
def isUtf8Cont (b : Nat) : Bool :=
  decide (0x80 ≤ b) && decide (b ≤ 0xBF)

/-- UTF-8 validity of a byte sequence (the check `CString::into_string`
performs). -/
def utf8Valid : List Nat → Bool
  | [] => true
  | b :: rest =>
    if b ≤ 0x7F then utf8Valid rest
    else if 0xC2 ≤ b ∧ b ≤ 0xDF then
      match rest with
      | c1 :: r => isUtf8Cont c1 && utf8Valid r
      | [] => false
    else if b = 0xE0 then
      match rest with
      | c1 :: c2 :: r =>
          decide (0xA0 ≤ c1) && decide (c1 ≤ 0xBF) && isUtf8Cont c2 &&
            utf8Valid r
      | _ => false
    else if 0xE1 ≤ b ∧ b ≤ 0xEC then
      match rest with
      | c1 :: c2 :: r => isUtf8Cont c1 && isUtf8Cont c2 && utf8Valid r
      | _ => false
    else if b = 0xED then
      match rest with
      | c1 :: c2 :: r =>
          decide (0x80 ≤ c1) && decide (c1 ≤ 0x9F) && isUtf8Cont c2 &&
            utf8Valid r
      | _ => false
    else if 0xEE ≤ b ∧ b ≤ 0xEF then
      match rest with
      | c1 :: c2 :: r => isUtf8Cont c1 && isUtf8Cont c2 && utf8Valid r
      | _ => false
    else if b = 0xF0 then
      match rest with
      | c1 :: c2 :: c3 :: r =>
          decide (0x90 ≤ c1) && decide (c1 ≤ 0xBF) && isUtf8Cont c2 &&
            isUtf8Cont c3 && utf8Valid r
      | _ => false
    else if 0xF1 ≤ b ∧ b ≤ 0xF3 then
      match rest with
      | c1 :: c2 :: c3 :: r =>
          isUtf8Cont c1 && isUtf8Cont c2 && isUtf8Cont c3 && utf8Valid r
      | _ => false
    else if b = 0xF4 then
      match rest with
      | c1 :: c2 :: c3 :: r =>
          decide (0x80 ≤ c1) && decide (c1 ≤ 0x8F) && isUtf8Cont c2 &&
            isUtf8Cont c3 && utf8Valid r
      | _ => false
    else false

/-- Result of `enum_projects`: the project pointer and, when requested and
non-empty, the project file path (its bytes). -/
structure EnumProjectsResult where
  project : Nat
  file_path : Option (List Nat)
deriving DecidableEq

/-- Result of `get_midi_input_name` / `get_midi_output_name`. -/
structure GetMidiDevNameResult where
  is_present : Bool
  name : Option (List Nat)
deriving DecidableEq

/-- `enum_projects` (`project_ref` already converted to its raw `i32`).
With buffer size 0 the native call receives the null buffer; otherwise a
buffer of the requested capacity is allocated via `with_string_buffer` and
read back as a `CString`. A panic (non-UTF-8 path) is `Except.error`. -/
def enum_projects {scope : UsageScope} (_h : MainThreadOnly scope)
    (low : LowReaper) (project_ref : Int) (buffer_size : Nat) :
    Except String (Option EnumProjectsResult) :=
  if buffer_size = 0 then
    match (low.EnumProjects project_ref none).1 with
    | none => Except.ok none
    | some project => Except.ok (some ⟨project, none⟩)
  else
    match low.EnumProjects project_ref (some buffer_size) with
    | (ptr, content) =>
        match ptr with
        | none => Except.ok none
        | some project =>
            if (takeUntilNul content).length = 0 then
              Except.ok (some ⟨project, none⟩)
            else if utf8Valid (takeUntilNul content) then
              Except.ok (some ⟨project, some (takeUntilNul content)⟩)
            else
              Except.error "project file path contains non-UTF8 characters"

/-- `get_midi_input_name`. -/
def get_midi_input_name {scope : UsageScope} (_h : MainThreadOnly scope)
    (low : LowReaper) (device_id : Nat) (buffer_size : Nat) :
    GetMidiDevNameResult :=
  if buffer_size = 0 then
    { is_present := (low.GetMIDIInputName device_id none).1, name := none }
  else
    match low.GetMIDIInputName device_id (some buffer_size) with
    | (is_present, content) =>
        if (takeUntilNul content).length = 0 then
          { is_present := is_present, name := none }
        else { is_present := is_present, name := some (takeUntilNul content) }

/-- `get_midi_output_name`. -/
def get_midi_output_name {scope : UsageScope} (_h : MainThreadOnly scope)
    (low : LowReaper) (device_id : Nat) (buffer_size : Nat) :
    GetMidiDevNameResult :=
  if buffer_size = 0 then
    { is_present := (low.GetMIDIOutputName device_id none).1, name := none }
  else
    match low.GetMIDIOutputName device_id (some buffer_size) with
    | (is_present, content) =>
        if (takeUntilNul content).length = 0 then
          { is_present := is_present, name := none }
        else { is_present := is_present, name := some (takeUntilNul content) }

/-- `validate_ptr_2` for a `ReaProject` pointer (no thread-scope bound in
the source). -/
def validate_ptr_2 (low : LowReaper) (project : ProjectContext)
    (pointer : Nat) : Bool :=
  low.ValidatePtr2 project.to_raw pointer

/-- `require_valid_project`: for an explicit project pointer, assert it is
still valid in the current project; the panic is `Except.error` with the
assertion message. -/
def require_valid_project (low : LowReaper) (project : ProjectContext) :
    Except String Unit :=
  match project with
  | ProjectContext.proj p =>
      if validate_ptr_2 low ProjectContext.currentProject p then
        Except.ok ()
      else Except.error "ReaProject doesn't exist anymore"
  | _ => Except.ok ()

/-- `get_track_unchecked`: forward to the native call with no validity
assertion; `None` exactly when the native call returns null. -/
def get_track_unchecked {scope : UsageScope} (_h : MainThreadOnly scope)
    (low : LowReaper) (project : ProjectContext) (track_index : Nat) :
    Option Nat :=
  low.GetTrack project.to_raw (u32_as_i32 track_index)

/-- `get_track`: assert the project pointer is still valid, then forward to
`get_track_unchecked`. -/
def get_track {scope : UsageScope} (h : MainThreadOnly scope)
    (low : LowReaper) (project : ProjectContext) (track_index : Nat) :
    Except String (Option Nat) :=
  match require_valid_project low project with
  | Except.error e => Except.error e
  | Except.ok _ => Except.ok (get_track_unchecked h low project track_index)

/-- The private `track_fx_add_by_name` helper: a raw forward
(`fx_chain_type == InputFxChain` already converted to `Bool`, the behavior
to its raw `i32`). -/
def track_fx_add_by_name {scope : UsageScope} (_h : MainThreadOnly scope)
    (low : LowReaper) (track : Nat) (fx_name : String)
    (input_fx_chain : Bool) (behavior : Int) : Int :=
  low.TrackFX_AddByName track fx_name input_fx_chain behavior

/-- `track_fx_add_by_name_add`: sentinel `-1` becomes a descriptive error,
any other non-negative value a success carrying that index; a negative
value other than `-1` hits `unreachable!()` (modelled with Rust's panic
message). -/
def track_fx_add_by_name_add {scope : UsageScope} (h : MainThreadOnly scope)
    (low : LowReaper) (track : Nat) (fx_name : String)
    (input_fx_chain : Bool) (behavior : Int) : Except String Nat :=
  let idx := track_fx_add_by_name h low track fx_name input_fx_chain behavior
  if idx = -1 then Except.error "FX couldn't be added"
  else if 0 ≤ idx then Except.ok idx.toNat
  else Except.error "internal error: entered unreachable code"

/-- `get_midi_input`: an audio-thread-only, closure-scoped accessor; the
closure receives the non-null device pointer. -/
def get_midi_input {scope : UsageScope} {R : Type _}
    (_h : AudioThreadOnly scope) (low : LowReaper) (device_id : Nat)
    (use_device : Nat → R) : Option R :=
  match low.GetMidiInput device_id with
  | none => none
  | some ptr => some (use_device ptr)

/-! ## Concrete sample inputs (used by the witness theorems) -/

/-- A declaration with no arguments: `DeleteTrack`-like shape. -/
def sampleSigNoArgs : BareSig := BareSig.mk false [] RType.otherTy

def sampleFnPtrNoArgs : FnPtr :=
  { name := "DeleteTrack", signature := sampleSigNoArgs }

def sampleMethodNoArgs : GenMethod :=
  { name := "DeleteTrack", markedUnsafe := false, safetyDoc := false
    params := [], paramTys := [], callArgs := [], retTy := RType.otherTy }

/-- A declaration with a raw-pointer argument and a plain argument. -/
def sampleSigPtr : BareSig :=
  BareSig.mk true
    [BareFnArg.mk (some "trackid") (RType.ptr RType.otherTy),
     BareFnArg.mk (some "measures") RType.otherTy]
    RType.otherTy

def sampleFnPtrWithArgs : FnPtr :=
  { name := "CountTracks", signature := sampleSigPtr }

def sampleMethodWithArgs : GenMethod :=
  { name := "CountTracks", markedUnsafe := true, safetyDoc := true
    params := ["trackid", "measures"]
    paramTys := [RType.ptr RType.otherTy, RType.otherTy]
    callArgs := ["trackid", "measures"], retTy := RType.otherTy }

def sampleFnPtrs : List FnPtr := [sampleFnPtrNoArgs, sampleFnPtrWithArgs]

/-- The artifact `generate_reaper_token_stream` produces for the single
no-argument declaration. -/
def sampleArtOne : ReaperArtifact :=
  { structFields := [("DeleteTrack", sampleSigNoArgs)]
    loaderNames := ["DeleteTrack"]
    methods := [sampleMethodNoArgs] }

/-- The artifact for both sample declarations. -/
def sampleArtBoth : ReaperArtifact :=
  { structFields := [("DeleteTrack", sampleSigNoArgs), ("CountTracks", sampleSigPtr)]
    loaderNames := ["DeleteTrack", "CountTracks"]
    methods := [sampleMethodNoArgs, sampleMethodWithArgs] }

/-- A concrete low-level oracle, one component per native call. -/
def sampleEnumProjects : Int → Option Nat → Option Nat × List Nat :=
  fun _ b => (some 7, if b.isSome then [104, 105, 0] else [])

def sampleGetMIDIInputName : Nat → Option Nat → Bool × List Nat :=
  fun _ b => (true, if b.isSome then [0] else [])

def sampleGetMIDIOutputName : Nat → Option Nat → Bool × List Nat :=
  fun _ _ => (true, [0])

def sampleGetTrack : Option Nat → Int → Option Nat :=
  fun _ i => if i = 0 then some 42 else none

def sampleValidatePtr2 : Option Nat → Nat → Bool :=
  fun _ p => p == 7

def sampleTrackFXAddByName : Nat → String → Bool → Int → Int :=
  fun _ _ _ behavior =>
    if behavior = 0 then -1 else if behavior = 1 then 0 else 3

def sampleGetMidiInput : Nat → Option Nat :=
  fun d => if d = 0 then some 9 else none

def sampleLow : LowReaper :=
  LowReaper.mk sampleEnumProjects sampleGetMIDIInputName
    sampleGetMIDIOutputName sampleGetTrack sampleValidatePtr2
    sampleTrackFXAddByName sampleGetMidiInput

/-- A concrete native function (sums its arguments). -/
def sampleNativeFn : List Int → Int :=
  fun vs => vs.foldl (· + ·) 0

/-- A resolver that answers every query with `sampleNativeFn`. -/
def sampleResolver : String → Option (List Int → Int) :=
  fun _ => some sampleNativeFn

/-- A resolver that answers every query with null. -/
def sampleNullResolver : String → Option (List Int → Int) :=
  fun _ => none

/-! ## Helper lemmas -/

theorem assoc_cons_ne {β : Type _} {n k : String} (v : β)
    (env : List (String × β)) (h : n ≠ k) :
    assoc n ((k, v) :: env) = assoc n env := by
  simp [assoc, h]

theorem assoc_map_self {β : Type _} (r : String → β) (names : List String)
    (n : String) (h : n ∈ names) :
    assoc n (names.map (fun m => (m, r m))) = some (r n) := by
  induction names with
  | nil => cases h
  | cons m rest ih =>
      by_cases e : n = m
      · subst e; simp [assoc]
      · have hr : n ∈ rest := (List.mem_cons.mp h).resolve_left e
        simp [assoc, e, ih hr]

theorem lookupArgs_cons_of_not_mem {α : Type _} (p : String) (v : α)
    (env : List (String × α)) (ns : List String) (h : p ∉ ns) :
    lookupArgs ((p, v) :: env) ns = lookupArgs env ns := by
  induction ns with
  | nil => rfl
  | cons n rest ih =>
      have hne : n ≠ p := by
        intro e
        apply h
        rw [← e]
        exact List.mem_cons_self n rest
      have hrest : p ∉ rest := fun hm => h (List.mem_cons_of_mem n hm)
      simp only [lookupArgs]
      rw [assoc_cons_ne v env hne, ih hrest]

theorem lookupArgs_zip_self {α : Type _} (params : List String)
    (argv : List α) (hnd : params.Nodup) (hlen : params.length = argv.length) :
    lookupArgs (params.zip argv) params = some argv := by
  induction params generalizing argv with
  | nil =>
      cases argv with
      | nil => rfl
      | cons v vs => simp at hlen
  | cons p ps ih =>
      cases argv with
      | nil => simp at hlen
      | cons v vs =>
          obtain ⟨hp, hps⟩ := List.nodup_cons.mp hnd
          have hlen' : ps.length = vs.length := by simpa using hlen
          have h1 : assoc p ((p, v) :: ps.zip vs) = some v := by
            simp [assoc]
          simp only [List.zip_cons_cons, lookupArgs, h1]
          rw [lookupArgs_cons_of_not_mem p v (ps.zip vs) ps hp, ih vs hps hlen']

theorem generate_method_ok (ptr : FnPtr) (m : GenMethod)
    (h : generate_method ptr = Except.ok m) :
    m.name = ptr.name ∧ m.markedUnsafe = ptr.has_pointer_args ∧
    m.safetyDoc = ptr.has_pointer_args ∧ m.callArgs = m.params ∧
    argNames ptr.signature.inputs = Except.ok m.params ∧
    m.paramTys = ptr.signature.inputs.map BareFnArg.ty := by
  unfold generate_method generate_fn_ptr_call at h
  cases hn : argNames ptr.signature.inputs with
  | error e => rw [hn] at h; cases h
  | ok ns =>
      rw [hn] at h
      cases h
      exact ⟨rfl, rfl, rfl, rfl, rfl, rfl⟩

theorem generate_artifact_ok (fnPtrs : List FnPtr) (art : ReaperArtifact)
    (h : generate_reaper_token_stream fnPtrs = Except.ok art) :
    art.structFields = (fnPtrs.map FnPtr.name).zip (fnPtrs.map adjustedSignature) ∧
    art.loaderNames = fnPtrs.map FnPtr.name := by
  unfold generate_reaper_token_stream build_compartments at h
  cases hg : genMethods fnPtrs with
  | error e => rw [hg] at h; cases h
  | ok ms =>
      rw [hg] at h
      cases h
      exact ⟨rfl, rfl⟩

theorem has_pointer_args_eq_any_map (p : FnPtr) :
    p.has_pointer_args = (p.signature.inputs.map BareFnArg.ty).any isPtrType := by
  unfold FnPtr.has_pointer_args
  induction p.signature.inputs with
  | nil => rfl
  | cons a t ih => simp [List.any, ih]

/-! ## Claim theorems -/

/-- C3: `MainThreadOnly` holds exactly for `MainThreadScope` and
`AudioThreadOnly` exactly for `RealTimeAudioThreadScope`; no scope has both
capabilities, both traits are sealed, and the scope argument carries no
runtime behaviour: every dispatch result is independent of which scope
instance (and which capability proof) is supplied — there is no runtime
thread check and no wrong-thread panic. -/
theorem scope_capability_partition :
    (∀ s, MainThreadOnly s ↔ s = UsageScope.mainThreadScope) ∧
    (∀ s, AudioThreadOnly s ↔ s = UsageScope.realTimeAudioThreadScope) ∧
    (∀ s, ¬(MainThreadOnly s ∧ AudioThreadOnly s)) ∧
    (∀ s, MainThreadOnly s → Sealed s) ∧
    (∀ s, AudioThreadOnly s → Sealed s) ∧
    (∀ (s s' : UsageScope) (h : MainThreadOnly s) (h' : MainThreadOnly s')
        (low : LowReaper) (r : Int) (n : Nat),
        enum_projects h low r n = enum_projects h' low r n) ∧
    (∀ (s s' : UsageScope) (h : AudioThreadOnly s) (h' : AudioThreadOnly s')
        (low : LowReaper) (d : Nat) (u : Nat → Nat),
        get_midi_input h low d u = get_midi_input h' low d u) := by
  refine ⟨?_, ?_, ?_, ?_, ?_, ?_, ?_⟩
  · intro s
    constructor
    · rintro ⟨⟩; rfl
    · rintro rfl; exact MainThreadOnly.mainThreadScope
  · intro s
    constructor
    · rintro ⟨⟩; rfl
    · rintro rfl; exact AudioThreadOnly.realTimeAudioThreadScope
  · rintro s ⟨⟨⟩, h2⟩
    cases h2
  · rintro s ⟨⟩
    exact Sealed.mainThreadScope
  · rintro s ⟨⟩
    exact Sealed.realTimeAudioThreadScope
  · intro s s' h h' low r n
    rfl
  · intro s s' h h' low d u
    rfl

/-- C5: the generated accessor carries the `unsafe` marker iff the
declaration has a raw-pointer parameter type; the classification is a
function of the parameter types alone. -/
theorem generated_method_unsafe_iff_pointer_args
    (ptr : FnPtr) (m : GenMethod)
    (hm : generate_method ptr = Except.ok m) :
    (m.markedUnsafe = true ↔ ptr.has_pointer_args = true) ∧
    (m.markedUnsafe = true ↔
      ∃ t ∈ ptr.signature.inputs.map BareFnArg.ty, isPtrType t = true) ∧
    (∀ (q : FnPtr) (m' : GenMethod),
      q.signature.inputs.map BareFnArg.ty =
        ptr.signature.inputs.map BareFnArg.ty →
      generate_method q = Except.ok m' →
      m'.markedUnsafe = m.markedUnsafe) := by
  obtain ⟨-, hmu, -, -, -, -⟩ := generate_method_ok ptr m hm
  refine ⟨by rw [hmu], ?_, ?_⟩
  · rw [hmu, has_pointer_args_eq_any_map]
    simp [List.any_eq_true]
  · intro q m' hty hm'
    obtain ⟨-, hmu', -, -, -, -⟩ := generate_method_ok q m' hm'
    rw [hmu, hmu', has_pointer_args_eq_any_map, has_pointer_args_eq_any_map,
      hty]

/-- Witness for C5 at the concrete pointer-argument declaration. -/
theorem generated_method_unsafe_iff_pointer_args_witness :
    (sampleMethodWithArgs.markedUnsafe = true ↔
      sampleFnPtrWithArgs.has_pointer_args = true) ∧
    (sampleMethodWithArgs.markedUnsafe = true ↔
      ∃ t ∈ sampleFnPtrWithArgs.signature.inputs.map BareFnArg.ty,
        isPtrType t = true) ∧
    (∀ (q : FnPtr) (m' : GenMethod),
      q.signature.inputs.map BareFnArg.ty =
        sampleFnPtrWithArgs.signature.inputs.map BareFnArg.ty →
      generate_method q = Except.ok m' →
      m'.markedUnsafe = sampleMethodWithArgs.markedUnsafe) :=
  generated_method_unsafe_iff_pointer_args sampleFnPtrWithArgs
    sampleMethodWithArgs rfl

/-- C8: `track_fx_add_by_name_add` maps the native sentinel `-1` to a
descriptive error and any non-negative native return `n` to a success
carrying `n`; in particular native `0` yields success carrying `0`. -/
theorem track_fx_add_by_name_add_sentinel
    {scope : UsageScope} (h : MainThreadOnly scope) (low : LowReaper)
    (track : Nat) (fx_name : String) (input_fx_chain : Bool)
    (behavior : Int) :
    (low.TrackFX_AddByName track fx_name input_fx_chain behavior = -1 →
      track_fx_add_by_name_add h low track fx_name input_fx_chain behavior =
        Except.error "FX couldn't be added") ∧
    (∀ n : Int, 0 ≤ n →
      low.TrackFX_AddByName track fx_name input_fx_chain behavior = n →
      track_fx_add_by_name_add h low track fx_name input_fx_chain behavior =
        Except.ok n.toNat) ∧
    (low.TrackFX_AddByName track fx_name input_fx_chain behavior = 0 →
      track_fx_add_by_name_add h low track fx_name input_fx_chain behavior =
        Except.ok 0) := by
  unfold track_fx_add_by_name_add track_fx_add_by_name
  refine ⟨?_, ?_, ?_⟩
  · intro hr
    simp [hr]
  · intro n hn hr
    rw [hr, if_neg (by omega), if_pos hn]
  · intro hr
    simp [hr]

/-- Witness for C8 at the concrete oracle (native return `0`). -/
theorem track_fx_add_by_name_add_sentinel_witness :
    (sampleLow.TrackFX_AddByName 1 "ReaComp" false 1 = -1 →
      track_fx_add_by_name_add MainThreadOnly.mainThreadScope sampleLow 1
        "ReaComp" false 1 = Except.error "FX couldn't be added") ∧
    (∀ n : Int, 0 ≤ n →
      sampleLow.TrackFX_AddByName 1 "ReaComp" false 1 = n →
      track_fx_add_by_name_add MainThreadOnly.mainThreadScope sampleLow 1
        "ReaComp" false 1 = Except.ok n.toNat) ∧
    (sampleLow.TrackFX_AddByName 1 "ReaComp" false 1 = 0 →
      track_fx_add_by_name_add MainThreadOnly.mainThreadScope sampleLow 1
        "ReaComp" false 1 = Except.ok 0) :=
  track_fx_add_by_name_add_sentinel MainThreadOnly.mainThreadScope sampleLow
    1 "ReaComp" false 1

/-- C9: `get_track` asserts (via `validate_ptr_2`) that an explicit project
pointer is still valid and panics otherwise, then forwards to
`get_track_unchecked`; the unchecked variant forwards without any validity
assertion (its result does not depend on `ValidatePtr2` at all); both
report `none` exactly when the native call returns the null pointer and the
non-null pointer otherwise. -/
theorem get_track_checked_vs_unchecked
    {scope : UsageScope} (h : MainThreadOnly scope) (low low' : LowReaper)
    (project : ProjectContext) (track_index : Nat) :
    (∀ p, project = ProjectContext.proj p →
      validate_ptr_2 low ProjectContext.currentProject p = false →
      get_track h low project track_index =
        Except.error "ReaProject doesn't exist anymore") ∧
    (require_valid_project low project = Except.ok () →
      get_track h low project track_index =
        Except.ok (get_track_unchecked h low project track_index)) ∧
    (get_track_unchecked h low project track_index =
      low.GetTrack project.to_raw (u32_as_i32 track_index)) ∧
    (get_track_unchecked h low project track_index = none ↔
      low.GetTrack project.to_raw (u32_as_i32 track_index) = none) ∧
    (low.GetTrack = low'.GetTrack →
      get_track_unchecked h low project track_index =
        get_track_unchecked h low' project track_index) ∧
    (∀ t, get_track h low project track_index = Except.ok t →
      t = low.GetTrack project.to_raw (u32_as_i32 track_index)) := by
  refine ⟨?_, ?_, rfl, Iff.rfl, ?_, ?_⟩
  · intro p hp hv
    subst hp
    unfold get_track require_valid_project
    simp [hv]
  · intro hreq
    unfold get_track
    rw [hreq]
  · intro hGT
    unfold get_track_unchecked
    rw [hGT]
  · intro t ht
    unfold get_track at ht
    cases hreq : require_valid_project low project with
    | error e => rw [hreq] at ht; cases ht
    | ok u => rw [hreq] at ht; cases ht; rfl

/-- Witness for C9 at the concrete oracle with a valid project pointer. -/
theorem get_track_checked_vs_unchecked_witness :
    (∀ p, ProjectContext.proj 7 = ProjectContext.proj p →
      validate_ptr_2 sampleLow ProjectContext.currentProject p = false →
      get_track MainThreadOnly.mainThreadScope sampleLow
        (ProjectContext.proj 7) 0 =
        Except.error "ReaProject doesn't exist anymore") ∧
    (require_valid_project sampleLow (ProjectContext.proj 7) =
        Except.ok () →
      get_track MainThreadOnly.mainThreadScope sampleLow
        (ProjectContext.proj 7) 0 =
        Except.ok (get_track_unchecked MainThreadOnly.mainThreadScope
          sampleLow (ProjectContext.proj 7) 0)) ∧
    (get_track_unchecked MainThreadOnly.mainThreadScope sampleLow
        (ProjectContext.proj 7) 0 =
      sampleLow.GetTrack (ProjectContext.proj 7).to_raw (u32_as_i32 0)) ∧
    (get_track_unchecked MainThreadOnly.mainThreadScope sampleLow
        (ProjectContext.proj 7) 0 = none ↔
      sampleLow.GetTrack (ProjectContext.proj 7).to_raw (u32_as_i32 0) =
        none) ∧
    (sampleLow.GetTrack = sampleLow.GetTrack →
      get_track_unchecked MainThreadOnly.mainThreadScope sampleLow
          (ProjectContext.proj 7) 0 =
        get_track_unchecked MainThreadOnly.mainThreadScope sampleLow
          (ProjectContext.proj 7) 0) ∧
    (∀ t, get_track MainThreadOnly.mainThreadScope sampleLow
        (ProjectContext.proj 7) 0 = Except.ok t →
      t = sampleLow.GetTrack (ProjectContext.proj 7).to_raw
        (u32_as_i32 0)) :=
  get_track_checked_vs_unchecked MainThreadOnly.mainThreadScope sampleLow
    sampleLow (ProjectContext.proj 7) 0

/-- C7: with buffer size 0 the string-buffer wrappers perform the native
call with the null buffer (size 0), their result is fully determined by
that null-buffer call (so no allocated buffer is ever consulted), and the
string is reported as absent (`none`), never as an empty string. -/
theorem zero_buffer_size_requests_no_string
    {scope : UsageScope} (h : MainThreadOnly scope) (low low' : LowReaper)
    (project_ref : Int) (dev : Nat) :
    (enum_projects h low project_ref 0 =
      match (low.EnumProjects project_ref none).1 with
      | none => Except.ok none
      | some p => Except.ok (some ⟨p, none⟩)) ∧
    (∀ r, enum_projects h low project_ref 0 = Except.ok (some r) →
      r.file_path = none) ∧
    (low.EnumProjects project_ref none = low'.EnumProjects project_ref none →
      enum_projects h low project_ref 0 = enum_projects h low' project_ref 0) ∧
    ((get_midi_input_name h low dev 0).name = none) ∧
    ((get_midi_input_name h low dev 0).is_present =
      (low.GetMIDIInputName dev none).1) ∧
    (low.GetMIDIInputName dev none = low'.GetMIDIInputName dev none →
      get_midi_input_name h low dev 0 = get_midi_input_name h low' dev 0) ∧
    ((get_midi_output_name h low dev 0).name = none) ∧
    ((get_midi_output_name h low dev 0).is_present =
      (low.GetMIDIOutputName dev none).1) ∧
    (low.GetMIDIOutputName dev none = low'.GetMIDIOutputName dev none →
      get_midi_output_name h low dev 0 = get_midi_output_name h low' dev 0) := by
  refine ⟨rfl, ?_, ?_, rfl, rfl, ?_, rfl, rfl, ?_⟩
  · intro r hr
    unfold enum_projects at hr
    rw [if_pos rfl] at hr
    cases hp : (low.EnumProjects project_ref none).1 with
    | none => rw [hp] at hr; cases hr
    | some p =>
        rw [hp] at hr
        injection hr with h1
        injection h1 with h2
        rw [← h2]
  · intro he
    unfold enum_projects
    rw [if_pos rfl, if_pos rfl, he]
  · intro he
    unfold get_midi_input_name
    rw [if_pos rfl, if_pos rfl, he]
  · intro he
    unfold get_midi_output_name
    rw [if_pos rfl, if_pos rfl, he]

/-- Witness for C7 at the concrete oracle. -/
theorem zero_buffer_size_requests_no_string_witness :
    (enum_projects MainThreadOnly.mainThreadScope sampleLow 0 0 =
      match (sampleLow.EnumProjects 0 none).1 with
      | none => Except.ok none
      | some p => Except.ok (some ⟨p, none⟩)) ∧
    (∀ r, enum_projects MainThreadOnly.mainThreadScope sampleLow 0 0 =
        Except.ok (some r) → r.file_path = none) ∧
    (sampleLow.EnumProjects 0 none = sampleLow.EnumProjects 0 none →
      enum_projects MainThreadOnly.mainThreadScope sampleLow 0 0 =
        enum_projects MainThreadOnly.mainThreadScope sampleLow 0 0) ∧
    ((get_midi_input_name MainThreadOnly.mainThreadScope sampleLow 0 0).name
      = none) ∧
    ((get_midi_input_name MainThreadOnly.mainThreadScope sampleLow 0
        0).is_present = (sampleLow.GetMIDIInputName 0 none).1) ∧
    (sampleLow.GetMIDIInputName 0 none = sampleLow.GetMIDIInputName 0 none →
      get_midi_input_name MainThreadOnly.mainThreadScope sampleLow 0 0 =
        get_midi_input_name MainThreadOnly.mainThreadScope sampleLow 0 0) ∧
    ((get_midi_output_name MainThreadOnly.mainThreadScope sampleLow 0
        0).name = none) ∧
    ((get_midi_output_name MainThreadOnly.mainThreadScope sampleLow 0
        0).is_present = (sampleLow.GetMIDIOutputName 0 none).1) ∧
    (sampleLow.GetMIDIOutputName 0 none = sampleLow.GetMIDIOutputName 0 none →
      get_midi_output_name MainThreadOnly.mainThreadScope sampleLow 0 0 =
        get_midi_output_name MainThreadOnly.mainThreadScope sampleLow 0 0) :=
  zero_buffer_size_requests_no_string MainThreadOnly.mainThreadScope
    sampleLow sampleLow 0 0

/-- C10: when a non-zero buffer is requested and the native call writes an
empty string (no byte before the NUL terminator), the wrappers report the
string as absent (`none`), exactly as when no string was requested; the
public result never carries `some` of an empty string. -/
theorem empty_native_string_reported_absent
    {scope : UsageScope} (h : MainThreadOnly scope) (low : LowReaper)
    (project_ref : Int) (dev : Nat) (n : Nat) (hn : n ≠ 0) :
    (takeUntilNul (low.EnumProjects project_ref (some n)).2 = [] →
      enum_projects h low project_ref n =
        match (low.EnumProjects project_ref (some n)).1 with
        | none => Except.ok none
        | some p => Except.ok (some ⟨p, none⟩)) ∧
    (∀ r, enum_projects h low project_ref n = Except.ok (some r) →
      r.file_path ≠ some []) ∧
    (takeUntilNul (low.GetMIDIInputName dev (some n)).2 = [] →
      get_midi_input_name h low dev n =
        { is_present := (low.GetMIDIInputName dev (some n)).1
          name := none }) ∧
    ((get_midi_input_name h low dev n).name ≠ some []) := by
  refine ⟨?_, ?_, ?_, ?_⟩
  · intro hempty
    rcases hq : low.EnumProjects project_ref (some n) with ⟨optPtr, content⟩
    rw [hq] at hempty
    simp only [enum_projects, if_neg hn, hq]
    cases optPtr with
    | none => rfl
    | some p => simp [hempty]
  · intro r hr
    unfold enum_projects at hr
    rw [if_neg hn] at hr
    rcases hq : low.EnumProjects project_ref (some n) with ⟨optPtr, content⟩
    rw [hq] at hr
    dsimp only at hr
    cases optPtr with
    | none => cases hr
    | some p =>
        dsimp only at hr
        by_cases hl : (takeUntilNul content).length = 0
        · rw [if_pos hl] at hr
          injection hr with h1
          injection h1 with h2
          rw [← h2]
          simp
        · rw [if_neg hl] at hr
          by_cases hv : utf8Valid (takeUntilNul content) = true
          · rw [if_pos hv] at hr
            injection hr with h1
            injection h1 with h2
            rw [← h2]
            simp only [ne_eq, Option.some.injEq]
            intro he
            exact hl (by rw [he]; rfl)
          · rw [if_neg hv] at hr
            cases hr
  · intro hempty
    rcases hq : low.GetMIDIInputName dev (some n) with ⟨pres, content⟩
    rw [hq] at hempty
    simp only [get_midi_input_name, if_neg hn, hq]
    simp [hempty]
  · unfold get_midi_input_name
    rw [if_neg hn]
    rcases hq : low.GetMIDIInputName dev (some n) with ⟨pres, content⟩
    dsimp only
    by_cases hl : (takeUntilNul content).length = 0
    · rw [if_pos hl]
      simp
    · rw [if_neg hl]
      simp only [ne_eq, Option.some.injEq]
      intro he
      exact hl (by rw [he]; rfl)

/-- Witness for C10 at the concrete oracle (the MIDI input name comes back
as the empty string and is reported absent). -/
theorem empty_native_string_reported_absent_witness :
    (takeUntilNul (sampleLow.EnumProjects 0 (some 4)).2 = [] →
      enum_projects MainThreadOnly.mainThreadScope sampleLow 0 4 =
        match (sampleLow.EnumProjects 0 (some 4)).1 with
        | none => Except.ok none
        | some p => Except.ok (some ⟨p, none⟩)) ∧
    (∀ r, enum_projects MainThreadOnly.mainThreadScope sampleLow 0 4 =
        Except.ok (some r) → r.file_path ≠ some []) ∧
    (takeUntilNul (sampleLow.GetMIDIInputName 0 (some 4)).2 = [] →
      get_midi_input_name MainThreadOnly.mainThreadScope sampleLow 0 4 =
        { is_present := (sampleLow.GetMIDIInputName 0 (some 4)).1
          name := none }) ∧
    ((get_midi_input_name MainThreadOnly.mainThreadScope sampleLow 0
        4).name ≠ some []) :=
  empty_native_string_reported_absent MainThreadOnly.mainThreadScope
    sampleLow 0 0 4 (by decide)

/-- C1: when the resolver answers null for a declared entry point, loading
still succeeds and records the field as `none` (one table entry per
declared name), and only the first use of the generated accessor panics,
with a message containing the entry point's name. -/
theorem absent_entry_recorded_then_panics_on_use
    (fnPtrs : List FnPtr) (art : ReaperArtifact) {α : Type}
    (resolver : String → Option (List α → α)) (ptr : FnPtr) (m : GenMethod)
    (argv : List α)
    (hart : generate_reaper_token_stream fnPtrs = Except.ok art)
    (hmem : ptr ∈ fnPtrs)
    (hm : generate_method ptr = Except.ok m)
    (habs : resolver ptr.name = none) :
    assoc ptr.name (loadTable art resolver) = some none ∧
    (loadTable art resolver).length = art.loaderNames.length ∧
    runMethod m (Option.join (assoc ptr.name (loadTable art resolver))) argv
      = Except.error
          ("Attempt to use a function that has not been loaded: " ++
            ptr.name) ∧
    (∃ pre,
      ("Attempt to use a function that has not been loaded: " ++ ptr.name)
        = pre ++ ptr.name) := by
  obtain ⟨-, hload⟩ := generate_artifact_ok fnPtrs art hart
  obtain ⟨hname, -, -, -, -, -⟩ := generate_method_ok ptr m hm
  have hmemn : ptr.name ∈ art.loaderNames := by
    rw [hload]
    exact List.mem_map_of_mem FnPtr.name hmem
  have hassoc : assoc ptr.name (loadTable art resolver)
      = some (resolver ptr.name) := by
    unfold loadTable
    exact assoc_map_self resolver art.loaderNames ptr.name hmemn
  refine ⟨by rw [hassoc, habs], by simp [loadTable], ?_, ⟨_, rfl⟩⟩
  rw [hassoc, habs]
  unfold runMethod
  rw [hname]
  rfl

/-- Witness for C1: a resolver answering null for the sample declaration. -/
theorem absent_entry_recorded_then_panics_on_use_witness :
    assoc sampleFnPtrNoArgs.name (loadTable sampleArtOne sampleNullResolver)
      = some none ∧
    (loadTable sampleArtOne sampleNullResolver).length =
      sampleArtOne.loaderNames.length ∧
    runMethod sampleMethodNoArgs
      (Option.join
        (assoc sampleFnPtrNoArgs.name
          (loadTable sampleArtOne sampleNullResolver))) [] =
      Except.error
        ("Attempt to use a function that has not been loaded: " ++
          sampleFnPtrNoArgs.name) ∧
    (∃ pre,
      ("Attempt to use a function that has not been loaded: " ++
        sampleFnPtrNoArgs.name) = pre ++ sampleFnPtrNoArgs.name) :=
  absent_entry_recorded_then_panics_on_use [sampleFnPtrNoArgs] sampleArtOne
    sampleNullResolver sampleFnPtrNoArgs sampleMethodNoArgs []
    rfl (List.mem_cons_self sampleFnPtrNoArgs []) rfl rfl

/-- C2: when the resolver answers a function `f` for a declared entry
point, the loaded field is `some f` and the generated accessor forwards a
call with any arguments to exactly one invocation of `f`, with the same
arguments in the same order, returning `f`'s result unchanged; the
generated call's argument expressions are exactly the method's parameter
names. -/
theorem present_entry_forwards_call
    (fnPtrs : List FnPtr) (art : ReaperArtifact) {α : Type}
    (resolver : String → Option (List α → α)) (ptr : FnPtr) (m : GenMethod)
    (f : List α → α) (argv : List α)
    (hart : generate_reaper_token_stream fnPtrs = Except.ok art)
    (hmem : ptr ∈ fnPtrs)
    (hm : generate_method ptr = Except.ok m)
    (hres : resolver ptr.name = some f)
    (hnd : m.params.Nodup)
    (hlen : m.params.length = argv.length) :
    m.callArgs = m.params ∧
    runMethod m (Option.join (assoc ptr.name (loadTable art resolver))) argv
      = Except.ok (f argv, [(ptr.name, argv)]) := by
  obtain ⟨-, hload⟩ := generate_artifact_ok fnPtrs art hart
  obtain ⟨hname, -, -, hca, -, -⟩ := generate_method_ok ptr m hm
  have hmemn : ptr.name ∈ art.loaderNames := by
    rw [hload]
    exact List.mem_map_of_mem FnPtr.name hmem
  have hassoc : assoc ptr.name (loadTable art resolver)
      = some (resolver ptr.name) := by
    unfold loadTable
    exact assoc_map_self resolver art.loaderNames ptr.name hmemn
  refine ⟨hca, ?_⟩
  rw [hassoc, hres]
  unfold runMethod
  rw [hca, lookupArgs_zip_self m.params argv hnd hlen, hname]
  rfl

/-- Witness for C2: the sample two-argument declaration called with
arguments `[5, 7]` against a resolver answering the summing native
function. -/
theorem present_entry_forwards_call_witness :
    sampleMethodWithArgs.callArgs = sampleMethodWithArgs.params ∧
    runMethod sampleMethodWithArgs
      (Option.join
        (assoc sampleFnPtrWithArgs.name
          (loadTable sampleArtBoth sampleResolver))) [5, 7] =
      Except.ok (sampleNativeFn [5, 7], [(sampleFnPtrWithArgs.name, [5, 7])]) :=
  present_entry_forwards_call sampleFnPtrs sampleArtBoth sampleResolver
    sampleFnPtrWithArgs sampleMethodWithArgs sampleNativeFn [5, 7]
    rfl (by simp [sampleFnPtrs]) rfl rfl (by decide) rfl

/-- C6: the generated table has exactly one optional-function-pointer field
per declaration, in declaration order; under the extractor invariant that
declaration names are pairwise distinct, the field names are pairwise
distinct and the generated loader queries the resolver exactly once per
declared name. -/
theorem table_one_field_per_declaration
    (fnPtrs : List FnPtr) (art : ReaperArtifact)
    (hart : generate_reaper_token_stream fnPtrs = Except.ok art)
    (hnd : (fnPtrs.map FnPtr.name).Nodup) :
    art.structFields.map Prod.fst = fnPtrs.map FnPtr.name ∧
    art.structFields.length = fnPtrs.length ∧
    (art.structFields.map Prod.fst).Nodup ∧
    art.loaderNames = fnPtrs.map FnPtr.name ∧
    (∀ p ∈ fnPtrs, art.loaderNames.count p.name = 1) := by
  obtain ⟨hsf, hload⟩ := generate_artifact_ok fnPtrs art hart
  have hlen : (fnPtrs.map FnPtr.name).length ≤
      (fnPtrs.map adjustedSignature).length := by
    simp
  have hfst : art.structFields.map Prod.fst = fnPtrs.map FnPtr.name := by
    rw [hsf]
    exact List.map_fst_zip _ _ hlen
  refine ⟨hfst, ?_, ?_, hload, ?_⟩
  · rw [hsf]
    simp [List.length_zip]
  · rw [hfst]
    exact hnd
  · intro p hp
    rw [hload]
    exact List.count_eq_one_of_mem hnd (List.mem_map_of_mem FnPtr.name hp)

/-- Witness for C6 at the two sample declarations. -/
theorem table_one_field_per_declaration_witness :
    sampleArtBoth.structFields.map Prod.fst =
      sampleFnPtrs.map FnPtr.name ∧
    sampleArtBoth.structFields.length = sampleFnPtrs.length ∧
    (sampleArtBoth.structFields.map Prod.fst).Nodup ∧
    sampleArtBoth.loaderNames = sampleFnPtrs.map FnPtr.name ∧
    (∀ p ∈ sampleFnPtrs, sampleArtBoth.loaderNames.count p.name = 1) :=
  table_one_field_per_declaration sampleFnPtrs sampleArtBoth rfl (by decide)

/-- `mapToFnPtrs` succeeds only with one converted declaration per
extracted item. -/
theorem mapToFnPtrs_ok_length (items : List (String × RType))
    (l : List FnPtr) (h : mapToFnPtrs items = Except.ok l) :
    l.length = items.length := by
  induction items generalizing l with
  | nil =>
      unfold mapToFnPtrs at h
      cases h
      rfl
  | cons s rest ih =>
      unfold mapToFnPtrs at h
      cases hm : map_to_fn_ptr s with
      | error e => rw [hm] at h; cases h
      | ok p =>
          rw [hm] at h
          cases hr : mapToFnPtrs rest with
          | error e => rw [hr] at h; cases h
          | ok ps =>
              rw [hr] at h
              cases h
              simp [ih ps hr]

/-- When `mapToFnPtrs` succeeds, every extracted item converted without a
panic. -/
theorem mapToFnPtrs_ok_of_mem (items : List (String × RType))
    (l : List FnPtr) (h : mapToFnPtrs items = Except.ok l)
    (s : String × RType) (hs : s ∈ items) :
    ∃ p, map_to_fn_ptr s = Except.ok p := by
  induction items generalizing l with
  | nil => cases hs
  | cons t rest ih =>
      unfold mapToFnPtrs at h
      cases hm : map_to_fn_ptr t with
      | error e => rw [hm] at h; cases h
      | ok p =>
          rw [hm] at h
          cases hr : mapToFnPtrs rest with
          | error e => rw [hr] at h; cases h
          | ok ps =>
              cases List.mem_cons.mp hs with
              | inl he => subst he; exact ⟨p, hm⟩
              | inr hmem => exact ih ps hr hmem

/-- One panicking item aborts the whole conversion. -/
theorem mapToFnPtrs_error_of_mem (items : List (String × RType))
    (s : String × RType) (hs : s ∈ items) (e : String)
    (he : map_to_fn_ptr s = Except.error e) :
    ∃ e', mapToFnPtrs items = Except.error e' := by
  induction items with
  | nil => cases hs
  | cons t rest ih =>
      cases List.mem_cons.mp hs with
      | inl h1 =>
          subst h1
          refine ⟨e, ?_⟩
          unfold mapToFnPtrs
          rw [he]
      | inr h2 =>
          obtain ⟨e', he'⟩ := ih h2
          cases hm : map_to_fn_ptr t with
          | error e2 =>
              refine ⟨e2, ?_⟩
              unfold mapToFnPtrs
              rw [hm]
          | ok p =>
              refine ⟨e', ?_⟩
              unfold mapToFnPtrs
              rw [hm, he']

/-- C4: the declaration extractor aborts (panics) whenever the single root
module is missing, the named function-pointer sub-module is missing, or a
matched static declaration fails the `Option<BareFn>` shape (including an
empty angle-bracket list); it never emits a partial declaration list — a
successful run converted every matched static. -/
theorem extractor_aborts_on_shape_mismatch
    (file : SynFile) (moduleName : String) :
    ((∀ rootItems, file.items ≠ [Item.mod "root" (some rootItems)]) →
      ∃ e, parse_fn_ptrs file moduleName = Except.error e) ∧
    (∀ rootItems, file.items = [Item.mod "root" (some rootItems)] →
      findFnPtrMod moduleName rootItems = none →
      parse_fn_ptrs file moduleName =
        Except.error "function pointer mod not found") ∧
    (∀ statics, filter_fn_ptr_items file moduleName = Except.ok statics →
      ∀ s ∈ statics, ∀ e, map_to_fn_ptr s = Except.error e →
        ∃ e', parse_fn_ptrs file moduleName = Except.error e') ∧
    (∀ l, parse_fn_ptrs file moduleName = Except.ok l →
      ∃ statics, filter_fn_ptr_items file moduleName = Except.ok statics ∧
        l.length = statics.length ∧
        ∀ s ∈ statics, ∃ p, map_to_fn_ptr s = Except.ok p) := by
  refine ⟨?_, ?_, ?_, ?_⟩
  · intro hshape
    cases hfi : file.items with
    | nil =>
        refine ⟨"root mod not found", ?_⟩
        unfold parse_fn_ptrs filter_fn_ptr_items
        rw [hfi]
    | cons x rest =>
        cases rest with
        | cons y rest2 =>
            refine ⟨"root mod not found", ?_⟩
            unfold parse_fn_ptrs filter_fn_ptr_items
            rw [hfi]
            cases x with
            | mod id content =>
                cases content with
                | none => rfl
                | some c => rfl
            | foreignMod its => rfl
            | otherItem => rfl
        | nil =>
            cases x with
            | foreignMod its =>
                refine ⟨"root mod not found", ?_⟩
                unfold parse_fn_ptrs filter_fn_ptr_items
                rw [hfi]
            | otherItem =>
                refine ⟨"root mod not found", ?_⟩
                unfold parse_fn_ptrs filter_fn_ptr_items
                rw [hfi]
            | mod id content =>
                cases content with
                | none =>
                    refine ⟨"root mod not found", ?_⟩
                    unfold parse_fn_ptrs filter_fn_ptr_items
                    rw [hfi]
                | some c =>
                    by_cases hid : id = "root"
                    · subst hid
                      exact absurd hfi (hshape c)
                    · refine ⟨"root mod not found", ?_⟩
                      unfold parse_fn_ptrs filter_fn_ptr_items
                      rw [hfi]
                      simp [hid]
  · intro rootItems hfi hfind
    unfold parse_fn_ptrs filter_fn_ptr_items
    rw [hfi]
    simp [hfind]
  · intro statics hfil s hs e he
    obtain ⟨e', he'⟩ := mapToFnPtrs_error_of_mem statics s hs e he
    refine ⟨e', ?_⟩
    unfold parse_fn_ptrs
    rw [hfil]
    show mapToFnPtrs statics = Except.error e'
    exact he'
  · intro l hl
    unfold parse_fn_ptrs at hl
    cases hfil : filter_fn_ptr_items file moduleName with
    | error e => rw [hfil] at hl; cases hl
    | ok statics =>
        rw [hfil] at hl
        have hl' : mapToFnPtrs statics = Except.ok l := hl
        exact ⟨statics, rfl, mapToFnPtrs_ok_length statics l hl',
          fun s hs => mapToFnPtrs_ok_of_mem statics l hl' s hs⟩

end ReaperRs
